import Mathlib

/-!
Shallow embedding of the caching core of the price-feed repository
(src/priceCache.js and the HTTP route layer).  JS strings are modelled as
lists of characters, JS millisecond timestamps as natural numbers, and the
Redis store as a lookup function from keys to optional cache entries.  The
upstream quote payload is kept opaque via a type parameter.
-/

namespace PriceFeed

/-- JS String.prototype.toLowerCase on the char-list model of strings. -/
def jsLower (s : List Char) : List Char := s.map Char.toLower

/-- Tier labels of config.tiers (src/priceCache.js lines 12-33). -/
inductive TierLabel where
  | TIER_1
  | TIER_2
  | TIER_3
  | TIER_4
deriving DecidableEq, Repr

open TierLabel

/-- The ttl field (milliseconds) of each tier in config.tiers. -/
def ttlOf : TierLabel → Nat
  | TIER_1 => 10000
  | TIER_2 => 60000
  | TIER_3 => 300000
  | TIER_4 => 600000

/-- config.maxStaleAge (milliseconds). -/
def maxStaleAge : Nat := 3600000

/-- config.circuitBreaker.failureThreshold (declared at src/priceCache.js
line 36; the field is never read anywhere else in the source). -/
def failureThreshold : Nat := 5

/-- config.circuitBreaker.resetTimeout in milliseconds (declared at
src/priceCache.js line 38; never read anywhere else in the source). -/
def resetTimeout : Nat := 60000

/-- A cache entry as written by setCache: { data, timestamp, tier }.  The
tier field is Option-valued because isExpired guards it with
`cached.tier || 'TIER_4'`, so an entry may lack it. -/
structure CacheEntry (α : Type) where
  data : α
  timestamp : Nat
  tier : Option TierLabel
deriving DecidableEq, Repr

/-- isExpired (src/priceCache.js lines 144-148).  JS computes
`Date.now() - cached.timestamp > ttl` on signed numbers; with Nat
truncated subtraction a future timestamp yields age 0, and a negative JS
age is likewise not greater than the (nonnegative) ttl, so the Boolean
agrees on every input. -/
def isExpired {α : Type} (now : Nat) (cached : CacheEntry α) : Bool :=
  let tier := cached.tier.getD TIER_4
  decide (now - cached.timestamp > ttlOf tier)

/-- canServeStale (src/priceCache.js lines 153-155):
`(Date.now() - cached.timestamp) < this.config.maxStaleAge`. -/
def canServeStale {α : Type} (now : Nat) (cached : CacheEntry α) : Bool :=
  decide (now - cached.timestamp < maxStaleAge)

/-- generateCacheKey (src/priceCache.js lines 106-108): the template
string joined with colons, then toLowerCase on the whole string. -/
def generateCacheKey (chainName tokenInSymbol tokenOutSymbol amount tradeType : List Char) :
    List Char :=
  jsLower ("price:".toList ++ chainName ++ (':' :: tokenInSymbol) ++ (':' :: tokenOutSymbol)
    ++ (':' :: amount) ++ (':' :: tradeType))

/-- The pair key `${chain}:${in}:${out}`.toLowerCase() used by
getTierForPair and addPairToTier. -/
def pairKeyOf (chainName tokenInSymbol tokenOutSymbol : List Char) : List Char :=
  jsLower (chainName ++ (':' :: tokenInSymbol) ++ (':' :: tokenOutSymbol))

/-- The tier membership sets (config.tiers[t].pairs), one member list per
tier label.  JS Sets are observed only through has/add here, so a list
with membership is a faithful model. -/
abbrev Registry : Type := TierLabel → List (List Char)

/-- addPairToTier (src/priceCache.js lines 271-274): adds the pair key to
the chosen tier's set and touches nothing else. -/
def addPairToTier (reg : Registry) (chainName tokenInSymbol tokenOutSymbol : List Char)
    (tier : TierLabel) : Registry :=
  fun t => if t = tier then pairKeyOf chainName tokenInSymbol tokenOutSymbol :: reg t else reg t

/-- getTierForPair (src/priceCache.js lines 160-170): first tier, in
declaration order TIER_1..TIER_4, whose pair set has the key; TIER_4 when
none does. -/
def getTierForPair (reg : Registry) (chainName tokenInSymbol tokenOutSymbol : List Char) :
    TierLabel :=
  let pairKey := pairKeyOf chainName tokenInSymbol tokenOutSymbol
  if pairKey ∈ reg TIER_1 then TIER_1
  else if pairKey ∈ reg TIER_2 then TIER_2
  else if pairKey ∈ reg TIER_3 then TIER_3
  else if pairKey ∈ reg TIER_4 then TIER_4
  else TIER_4

/-- The counter fields of this.metrics that getPrice touches. -/
structure Metrics where
  cacheHits : Nat
  cacheMisses : Nat
  errors : Nat
deriving DecidableEq, Repr

/-- A Bull job as built by queuePriceUpdate (src/priceCache.js lines
188-205): the job data plus the options priority / attempts / backoff
delay. -/
structure QueueJob where
  chainName : List Char
  tokenInSymbol : List Char
  tokenOutSymbol : List Char
  amount : List Char
  tradeType : List Char
  priority : Int
  attempts : Nat
  backoffDelay : Nat
deriving DecidableEq, Repr

/-- The priority option of queuePriceUpdate:
`priority === 'high' ? 1 : priority === 'background' ? -1 : 0`. -/
def priorityOf (priority : List Char) : Int :=
  if priority = "high".toList then 1 else if priority = "background".toList then -1 else 0

/-- queuePriceUpdate (src/priceCache.js lines 188-205) as the job value it
adds to the queue. -/
def queuePriceUpdate (chainName tokenInSymbol tokenOutSymbol amount tradeType : List Char)
    (priority : List Char) : QueueJob :=
  { chainName := chainName, tokenInSymbol := tokenInSymbol, tokenOutSymbol := tokenOutSymbol,
    amount := amount, tradeType := tradeType, priority := priorityOf priority,
    attempts := 3, backoffDelay := 2000 }

/-- A quote on egress from getPrice: the upstream payload plus the
envelope flags the code may attach (_stale, _veryStale, _error).  A JS
object without a flag reads it as undefined, i.e. falsy, modelled as
false / none. -/
structure Quote (α : Type) where
  payload : α
  stale : Bool
  veryStale : Bool
  errorMsg : Option (List Char)
deriving DecidableEq, Repr

/-- Everything observable about one getPrice call: its return value (ok
quote or thrown error message), the metrics counters after the call, the
jobs it queued, the store writes it performed as (key, entry, ttl-seconds)
triples built by setCache, the number of getFromCache reads, and the
number of synchronous fetchPrice (upstream) invocations. -/
structure GetPriceResult (α : Type) where
  result : Except (List Char) (Quote α)
  metrics : Metrics
  queued : List QueueJob
  writes : List (List Char × CacheEntry α × Nat)
  storeReads : Nat
  upstreamCalls : Nat
deriving Repr

/-- setCache (src/priceCache.js lines 126-139) as the setex call it
performs: the key, the entry { data, timestamp: Date.now(), tier }, and
the store-side TTL Math.floor(ttl / 1000) in seconds. -/
def setCache {α : Type} (key : List Char) (data : α) (tier : TierLabel) (now : Nat) :
    List Char × CacheEntry α × Nat :=
  (key, { data := data, timestamp := now, tier := some tier }, ttlOf tier / 1000)

/-- The miss branch of getPrice (src/priceCache.js lines 80-100): count a
miss, fetch synchronously; on success cache under getTierForPair and
return the payload; on failure count an error, re-read the store once,
and either return the spread of the found entry with _error/_veryStale
or rethrow. -/
def getPriceMiss {α : Type} (fallbackStore : List Char → Option (CacheEntry α))
    (upstream : Except (List Char) α) (reg : Registry) (now : Nat) (m : Metrics)
    (cacheKey chainName tokenInSymbol tokenOutSymbol : List Char) : GetPriceResult α :=
  let m1 : Metrics := { m with cacheMisses := m.cacheMisses + 1 }
  match upstream with
  | .ok price =>
      { result := .ok { payload := price, stale := false, veryStale := false, errorMsg := none },
        metrics := m1,
        queued := [],
        writes := [setCache cacheKey price
          (getTierForPair reg chainName tokenInSymbol tokenOutSymbol) now],
        storeReads := 1, upstreamCalls := 1 }
  | .error msg =>
      let m2 : Metrics := { m1 with errors := m1.errors + 1 }
      match fallbackStore cacheKey with
      | some entry =>
          { result :=
              .ok { payload := entry.data, stale := false, veryStale := true,
                    errorMsg := some msg },
            metrics := m2, queued := [], writes := [], storeReads := 2, upstreamCalls := 1 }
      | none =>
          { result := .error msg, metrics := m2, queued := [], writes := [],
            storeReads := 2, upstreamCalls := 1 }

/-- getPrice (src/priceCache.js lines 58-101).  The store is passed as
two snapshots: the one seen by the initial getFromCache and the one seen
by the fallback re-read in the catch block (they may differ under
interleaving; every claim proved below holds for any pair). -/
def getPrice {α : Type} (store fallbackStore : List Char → Option (CacheEntry α))
    (upstream : Except (List Char) α) (reg : Registry) (now : Nat) (m : Metrics)
    (chainName tokenInSymbol tokenOutSymbol amount tradeType : List Char) : GetPriceResult α :=
  let cacheKey := generateCacheKey chainName tokenInSymbol tokenOutSymbol amount tradeType
  match store cacheKey with
  | some cached =>
      if ¬ isExpired now cached then
        { result :=
            .ok { payload := cached.data, stale := false, veryStale := false,
                  errorMsg := none },
          metrics := { m with cacheHits := m.cacheHits + 1 },
          queued := [], writes := [], storeReads := 1, upstreamCalls := 0 }
      else if canServeStale now cached then
        { result :=
            .ok { payload := cached.data, stale := true, veryStale := false,
                  errorMsg := none },
          metrics := { m with cacheHits := m.cacheHits + 1 },
          queued := [queuePriceUpdate chainName tokenInSymbol tokenOutSymbol amount tradeType
            "background".toList],
          writes := [], storeReads := 1, upstreamCalls := 0 }
      else
        getPriceMiss fallbackStore upstream reg now m cacheKey chainName tokenInSymbol
          tokenOutSymbol
  | none =>
      getPriceMiss fallbackStore upstream reg now m cacheKey chainName tokenInSymbol
        tokenOutSymbol

/-- JS `x || 0` applied to a division result, with none standing for the
NaN produced by 0/0 (the only way getMetrics can divide by zero, since
its numerator is at most its denominator); NaN and 0 are both falsy. -/
def jsOrZero : Option ℚ → ℚ
  | none => 0
  | some q => if q = 0 then 0 else q

/-- JS division of the two counters; none models the non-finite result
when the denominator is 0. -/
def jsDivNat (a b : Nat) : Option ℚ :=
  if b = 0 then none else some ((a : ℚ) / (b : ℚ))

/-- The hitRate field of getMetrics (src/priceCache.js line 286):
`this.metrics.cacheHits / (this.metrics.cacheHits + this.metrics.cacheMisses) || 0`. -/
def hitRate (m : Metrics) : ℚ :=
  jsOrZero (jsDivNat m.cacheHits (m.cacheHits + m.cacheMisses))

/-- The metadata.cached flag computed by the GET /price route
(src/unnamed/part_001 line 65): `!price._stale && !price._veryStale`. -/
def metadataCached {α : Type} (price : Quote α) : Bool :=
  (!price.stale) && (!price.veryStale)

/-- Helper: mapping Char.toLower over the literal namespace characters
and the colon separator changes nothing, so jsLower of the joined string
splits into the lowered components. -/
theorem jsLower_append (s t : List Char) : jsLower (s ++ t) = jsLower s ++ jsLower t := by
  simp [jsLower]

theorem jsLower_colon_cons (s : List Char) : jsLower (':' :: s) = ':' :: jsLower s := by
  have h : Char.toLower ':' = ':' := by decide
  simp [jsLower, h]

theorem jsLower_price_prefix : jsLower "price:".toList = "price:".toList := by
  decide

/-- C6: generateCacheKey is the constant namespace followed by the
lowercased parameters joined with colons, and is invariant under case
changes of the parameters. -/
theorem generateCacheKey_canonical :
    (∀ c i o a t : List Char,
      generateCacheKey c i o a t =
        "price:".toList ++ jsLower c ++ (':' :: jsLower i) ++ (':' :: jsLower o)
          ++ (':' :: jsLower a) ++ (':' :: jsLower t)) ∧
    (∀ c₁ i₁ o₁ a₁ t₁ c₂ i₂ o₂ a₂ t₂ : List Char,
      jsLower c₁ = jsLower c₂ → jsLower i₁ = jsLower i₂ → jsLower o₁ = jsLower o₂ →
      jsLower a₁ = jsLower a₂ → jsLower t₁ = jsLower t₂ →
      generateCacheKey c₁ i₁ o₁ a₁ t₁ = generateCacheKey c₂ i₂ o₂ a₂ t₂) := by
  have hkey : ∀ c i o a t : List Char,
      generateCacheKey c i o a t =
        "price:".toList ++ jsLower c ++ (':' :: jsLower i) ++ (':' :: jsLower o)
          ++ (':' :: jsLower a) ++ (':' :: jsLower t) := by
    intro c i o a t
    unfold generateCacheKey
    rw [jsLower_append, jsLower_append, jsLower_append, jsLower_append, jsLower_append,
      jsLower_colon_cons, jsLower_colon_cons, jsLower_colon_cons, jsLower_colon_cons,
      jsLower_price_prefix]
  refine ⟨hkey, ?_⟩
  intro c₁ i₁ o₁ a₁ t₁ c₂ i₂ o₂ a₂ t₂ hc hi ho ha ht
  rw [hkey, hkey, hc, hi, ho, ha, ht]

/-- Witness for C6: mixed-case and lower-case spellings of the same
parameters produce the same cache key. -/
theorem generateCacheKey_canonical_witness :
    generateCacheKey "Ethereum".toList "USDC".toList "WETH".toList "1000".toList
        "exactIn".toList =
      generateCacheKey "ethereum".toList "usdc".toList "weth".toList "1000".toList
        "exactin".toList :=
  generateCacheKey_canonical.2 "Ethereum".toList "USDC".toList "WETH".toList "1000".toList
    "exactIn".toList "ethereum".toList "usdc".toList "weth".toList "1000".toList
    "exactin".toList (by decide) (by decide) (by decide) (by decide) (by decide)

/-- C5 counterexample: at age exactly maxStaleAge the code's
canServeStale is false, while the claim says such an entry is still
servable-stale (its age is at most maxStaleAge). -/
theorem canServeStale_boundary_counterexample :
    canServeStale 3600000 ({ data := 0, timestamp := 0, tier := none } : CacheEntry Nat)
        = false ∧
      3600000 - 0 ≤ maxStaleAge := by
  constructor
  · decide
  · decide

/-- C5 (amended): an entry is servable-stale iff its age is strictly
below maxStaleAge; an entry whose age equals maxStaleAge is not
servable. -/
theorem canServeStale_iff {α : Type} (now : Nat) (c : CacheEntry α) :
    canServeStale now c = true ↔ now - c.timestamp < maxStaleAge := by
  simp [canServeStale]

/-- C7: hitRate equals cacheHits / (cacheHits + cacheMisses) when the
denominator is positive, and equals 0 when both counters are 0. -/
theorem getMetrics_hitRate (m : Metrics) :
    (0 < m.cacheHits + m.cacheMisses →
      hitRate m = (m.cacheHits : ℚ) / ((m.cacheHits : ℚ) + (m.cacheMisses : ℚ))) ∧
    (m.cacheHits = 0 ∧ m.cacheMisses = 0 → hitRate m = 0) := by
  constructor
  · intro hpos
    have hne : m.cacheHits + m.cacheMisses ≠ 0 := Nat.pos_iff_ne_zero.mp hpos
    simp only [hitRate, jsDivNat, jsOrZero, if_neg hne]
    push_cast
    split
    · rename_i hq
      exact hq.symm
    · rfl
  · rintro ⟨h1, h2⟩
    simp [hitRate, jsDivNat, jsOrZero, h1, h2]

/-- Witness for C7: with 3 hits and 1 miss the hit rate is 3/4, and with
zeroed counters it is 0. -/
theorem getMetrics_hitRate_witness :
    hitRate { cacheHits := 3, cacheMisses := 1, errors := 0 } = (3 : ℚ) / ((3 : ℚ) + (1 : ℚ)) ∧
      hitRate { cacheHits := 0, cacheMisses := 0, errors := 7 } = 0 :=
  ⟨by
      have h := (getMetrics_hitRate { cacheHits := 3, cacheMisses := 1, errors := 0 }).1
        (by decide)
      simpa using h,
    (getMetrics_hitRate { cacheHits := 0, cacheMisses := 0, errors := 7 }).2 ⟨rfl, rfl⟩⟩

/-- C8: setCache hands the store a TTL of floor(tier ttl / 1000) seconds,
which in milliseconds is exactly the tier's freshness boundary and lies
strictly below maxStaleAge; the entry it writes carries the given data,
the current time, and the tier. -/
theorem setCache_store_ttl {α : Type} (key : List Char) (data : α) (tier : TierLabel)
    (now : Nat) :
    (setCache key data tier now).2.2 = ttlOf tier / 1000 ∧
    (setCache key data tier now).2.2 * 1000 = ttlOf tier ∧
    (setCache key data tier now).2.2 * 1000 < maxStaleAge ∧
    (setCache key data tier now).2.1 =
      { data := data, timestamp := now, tier := some tier } ∧
    (setCache key data tier now).1 = key := by
  refine ⟨rfl, ?_, ?_, rfl, rfl⟩
  · cases tier <;> norm_num [setCache, ttlOf]
  · cases tier <;> norm_num [setCache, ttlOf, maxStaleAge]

/-- C9: an entry with no tier field is checked against the TIER_4 TTL of
600000 ms; isExpired is total there and reports expiry exactly when the
age exceeds that bound. -/
theorem isExpired_missing_tier {α : Type} (data : α) (ts now : Nat) :
    (isExpired now ({ data := data, timestamp := ts, tier := none } : CacheEntry α) = true ↔
      now - ts > ttlOf TierLabel.TIER_4) ∧
    ttlOf TierLabel.TIER_4 = 600000 := by
  constructor
  · simp [isExpired]
  · rfl

/-- C3: when the initial lookup finds an entry that is expired but can be
served stale, getPrice queues exactly one background-priority refresh for
the same request, counts a hit (and no miss or error), returns the cached
payload with the stale flag set, and never calls upstream. -/
theorem getPrice_staleServe {α : Type} (store fstore : List Char → Option (CacheEntry α))
    (up : Except (List Char) α) (reg : Registry) (now : Nat) (m : Metrics)
    (c i o a t : List Char) (entry : CacheEntry α)
    (hget : store (generateCacheKey c i o a t) = some entry)
    (hexp : isExpired now entry = true)
    (hstale : canServeStale now entry = true) :
    (getPrice store fstore up reg now m c i o a t).result =
      Except.ok { payload := entry.data, stale := true, veryStale := false, errorMsg := none } ∧
    (getPrice store fstore up reg now m c i o a t).metrics.cacheHits = m.cacheHits + 1 ∧
    (getPrice store fstore up reg now m c i o a t).metrics.cacheMisses = m.cacheMisses ∧
    (getPrice store fstore up reg now m c i o a t).metrics.errors = m.errors ∧
    (getPrice store fstore up reg now m c i o a t).queued =
      [queuePriceUpdate c i o a t "background".toList] ∧
    (queuePriceUpdate c i o a t "background".toList).priority = -1 ∧
    (getPrice store fstore up reg now m c i o a t).upstreamCalls = 0 := by
  simp [getPrice, hget, hexp, hstale, queuePriceUpdate]
  decide

/-- Witness for C3: a TIER_1 entry written at time 0 and read at 20000 ms
(expired, servable) is served stale with one background job queued. -/
theorem getPrice_staleServe_witness :
    (getPrice
        (fun k => if k = generateCacheKey "ethereum".toList "usdc".toList "weth".toList
            "1000".toList "exactin".toList then
          some ({ data := 42, timestamp := 0, tier := some TierLabel.TIER_1 } : CacheEntry Nat)
        else none)
        (fun _ => none) (Except.ok 0) (fun _ => []) 20000
        { cacheHits := 0, cacheMisses := 0, errors := 0 }
        "ethereum".toList "usdc".toList "weth".toList "1000".toList "exactin".toList).result =
      Except.ok { payload := 42, stale := true, veryStale := false, errorMsg := none } ∧
    (getPrice
        (fun k => if k = generateCacheKey "ethereum".toList "usdc".toList "weth".toList
            "1000".toList "exactin".toList then
          some ({ data := 42, timestamp := 0, tier := some TierLabel.TIER_1 } : CacheEntry Nat)
        else none)
        (fun _ => none) (Except.ok 0) (fun _ => []) 20000
        { cacheHits := 0, cacheMisses := 0, errors := 0 }
        "ethereum".toList "usdc".toList "weth".toList "1000".toList
        "exactin".toList).metrics.cacheHits = 1 ∧
    (getPrice
        (fun k => if k = generateCacheKey "ethereum".toList "usdc".toList "weth".toList
            "1000".toList "exactin".toList then
          some ({ data := 42, timestamp := 0, tier := some TierLabel.TIER_1 } : CacheEntry Nat)
        else none)
        (fun _ => none) (Except.ok 0) (fun _ => []) 20000
        { cacheHits := 0, cacheMisses := 0, errors := 0 }
        "ethereum".toList "usdc".toList "weth".toList "1000".toList
        "exactin".toList).upstreamCalls = 0 := by
  have h := getPrice_staleServe
    (fun k => if k = generateCacheKey "ethereum".toList "usdc".toList "weth".toList
        "1000".toList "exactin".toList then
      some ({ data := 42, timestamp := 0, tier := some TierLabel.TIER_1 } : CacheEntry Nat)
    else none)
    (fun _ => none) (Except.ok 0) (fun _ => []) 20000
    { cacheHits := 0, cacheMisses := 0, errors := 0 }
    "ethereum".toList "usdc".toList "weth".toList "1000".toList "exactin".toList
    { data := 42, timestamp := 0, tier := some TierLabel.TIER_1 }
    (by decide) (by decide) (by decide)
  exact ⟨h.1, h.2.1, h.2.2.2.2.2.2⟩

/-- C4: on the miss path, when the synchronous fetch fails, getPrice
reads the store exactly twice in total (the initial lookup plus one
fallback re-read); if the re-read finds any entry its payload is
returned with veryStale set and the error message attached, otherwise
the upstream error is rethrown. -/
theorem getPrice_failureFallback {α : Type} (store fstore : List Char → Option (CacheEntry α))
    (msg : List Char) (reg : Registry) (now : Nat) (m : Metrics) (c i o a t : List Char)
    (hmiss : store (generateCacheKey c i o a t) = none ∨
      ∃ entry, store (generateCacheKey c i o a t) = some entry ∧ isExpired now entry = true ∧
        canServeStale now entry = false) :
    (getPrice store fstore (Except.error msg) reg now m c i o a t).storeReads = 2 ∧
    (getPrice store fstore (Except.error msg) reg now m c i o a t).upstreamCalls = 1 ∧
    (∀ e2, fstore (generateCacheKey c i o a t) = some e2 →
      (getPrice store fstore (Except.error msg) reg now m c i o a t).result =
        Except.ok { payload := e2.data, stale := false, veryStale := true, errorMsg := some msg }) ∧
    (fstore (generateCacheKey c i o a t) = none →
      (getPrice store fstore (Except.error msg) reg now m c i o a t).result =
        Except.error msg) := by
  have main : getPrice store fstore (Except.error msg) reg now m c i o a t =
      getPriceMiss fstore (Except.error msg) reg now m (generateCacheKey c i o a t) c i o := by
    rcases hmiss with h | ⟨e, he, hexp, hs⟩
    · simp [getPrice, h]
    · simp [getPrice, he, hexp, hs]
  rw [main]
  refine ⟨?_, ?_, ?_, ?_⟩
  · cases hf : fstore (generateCacheKey c i o a t) <;> simp [getPriceMiss, hf]
  · cases hf : fstore (generateCacheKey c i o a t) <;> simp [getPriceMiss, hf]
  · intro e2 hf
    simp [getPriceMiss, hf]
  · intro hf
    simp [getPriceMiss, hf]

/-- Witness for C4: with an empty first snapshot, a failing upstream and
a very stale fallback entry, getPrice performs the fallback re-read and
returns the entry with veryStale and the message. -/
theorem getPrice_failureFallback_witness :
    (getPrice (fun _ => (none : Option (CacheEntry Nat)))
        (fun k => if k = generateCacheKey "base".toList "usdc".toList "weth".toList
            "1".toList "exactin".toList then
          some ({ data := 7, timestamp := 0, tier := none } : CacheEntry Nat)
        else none)
        (Except.error "rpc down".toList) (fun _ => []) 5000000
        { cacheHits := 0, cacheMisses := 0, errors := 0 }
        "base".toList "usdc".toList "weth".toList "1".toList "exactin".toList).storeReads = 2 ∧
    (getPrice (fun _ => (none : Option (CacheEntry Nat)))
        (fun k => if k = generateCacheKey "base".toList "usdc".toList "weth".toList
            "1".toList "exactin".toList then
          some ({ data := 7, timestamp := 0, tier := none } : CacheEntry Nat)
        else none)
        (Except.error "rpc down".toList) (fun _ => []) 5000000
        { cacheHits := 0, cacheMisses := 0, errors := 0 }
        "base".toList "usdc".toList "weth".toList "1".toList "exactin".toList).result =
      Except.ok { payload := 7, stale := false, veryStale := true, errorMsg := some "rpc down".toList } := by
  have h := getPrice_failureFallback (fun _ => (none : Option (CacheEntry Nat)))
    (fun k => if k = generateCacheKey "base".toList "usdc".toList "weth".toList
        "1".toList "exactin".toList then
      some ({ data := 7, timestamp := 0, tier := none } : CacheEntry Nat)
    else none)
    "rpc down".toList (fun _ => []) 5000000
    { cacheHits := 0, cacheMisses := 0, errors := 0 }
    "base".toList "usdc".toList "weth".toList "1".toList "exactin".toList
    (Or.inl rfl)
  exact ⟨h.1, h.2.2.1 { data := 7, timestamp := 0, tier := none } (by decide)⟩

/-- C10: any request that misses the cache (no entry at lookup, or only
a too-stale entry) and succeeds upstream returns the payload with no
staleness flags, so the route's metadata computation !stale && !veryStale
reports cached = true even though the quote came from upstream, a miss. -/
theorem route_cached_flag_after_miss {α : Type}
    (store fstore : List Char → Option (CacheEntry α)) (payload : α) (reg : Registry)
    (now : Nat) (m : Metrics) (c i o a t : List Char)
    (hmiss : store (generateCacheKey c i o a t) = none ∨
      ∃ entry, store (generateCacheKey c i o a t) = some entry ∧ isExpired now entry = true ∧
        canServeStale now entry = false) :
    (getPrice store fstore (Except.ok payload) reg now m c i o a t).result =
      Except.ok { payload := payload, stale := false, veryStale := false, errorMsg := none } ∧
    metadataCached ({ payload := payload, stale := false, veryStale := false, errorMsg := none } : Quote α) = true ∧
    (getPrice store fstore (Except.ok payload) reg now m c i o a t).metrics.cacheMisses =
      m.cacheMisses + 1 ∧
    (getPrice store fstore (Except.ok payload) reg now m c i o a t).upstreamCalls = 1 := by
  rcases hmiss with h | ⟨e, he, hexp, hs⟩
  · simp [getPrice, h, getPriceMiss, metadataCached]
  · simp [getPrice, he, hexp, hs, getPriceMiss, metadataCached]

/-- Witness for C10: a concrete miss whose lookup finds only a too-stale
entry (age 5000000 ms > maxStaleAge) sync-fetches upstream and is still
reported as cached by the route metadata. -/
theorem route_cached_flag_after_miss_witness :
    (getPrice
        (fun k => if k = generateCacheKey "ethereum".toList "usdc".toList "weth".toList
            "1000".toList "exactin".toList then
          some ({ data := 3, timestamp := 0, tier := some TierLabel.TIER_4 } : CacheEntry Nat)
        else none)
        (fun _ => none) (Except.ok 99) (fun _ => []) 5000000
        { cacheHits := 0, cacheMisses := 0, errors := 0 }
        "ethereum".toList "usdc".toList "weth".toList "1000".toList
        "exactin".toList).result =
      Except.ok { payload := 99, stale := false, veryStale := false, errorMsg := none } ∧
    metadataCached ({ payload := 99, stale := false, veryStale := false, errorMsg := none } : Quote Nat) = true := by
  have h := route_cached_flag_after_miss
    (fun k => if k = generateCacheKey "ethereum".toList "usdc".toList "weth".toList
        "1000".toList "exactin".toList then
      some ({ data := 3, timestamp := 0, tier := some TierLabel.TIER_4 } : CacheEntry Nat)
    else none)
    (fun _ => none) 99 (fun _ => []) 5000000
    { cacheHits := 0, cacheMisses := 0, errors := 0 }
    "ethereum".toList "usdc".toList "weth".toList "1000".toList "exactin".toList
    (Or.inr ⟨{ data := 3, timestamp := 0, tier := some TierLabel.TIER_4 },
      by decide, by decide, by decide⟩)
  exact ⟨h.1, h.2.1⟩

/-- C1: there is no circuit breaker on the synchronous path.  Even when
the metrics already record at least failureThreshold errors, a getPrice
call with an empty store still invokes upstream (exactly once) and
surfaces the upstream error itself, never a circuit-open fail-fast; the
declared failureThreshold and resetTimeout are dead configuration. -/
theorem getPrice_no_circuit_breaker {α : Type} (msg : List Char) (reg : Registry)
    (now : Nat) (m : Metrics) (c i o a t : List Char)
    (hfail : failureThreshold ≤ m.errors) :
    (getPrice (fun _ => (none : Option (CacheEntry α))) (fun _ => none)
        (Except.error msg) reg now m c i o a t).upstreamCalls = 1 ∧
    (getPrice (fun _ => (none : Option (CacheEntry α))) (fun _ => none)
        (Except.error msg) reg now m c i o a t).result = Except.error msg ∧
    (getPrice (fun _ => (none : Option (CacheEntry α))) (fun _ => none)
        (Except.error msg) reg now m c i o a t).metrics.errors = m.errors + 1 := by
  simp [getPrice, getPriceMiss]

/-- Witness for C1: after five recorded failures (the declared
failureThreshold) the sixth call still reaches upstream. -/
theorem getPrice_no_circuit_breaker_witness :
    (getPrice (fun _ => (none : Option (CacheEntry Nat))) (fun _ => none)
        (Except.error "fail".toList) (fun _ => []) 0
        { cacheHits := 0, cacheMisses := 5, errors := 5 }
        "ethereum".toList "usdc".toList "weth".toList "1000".toList
        "exactin".toList).upstreamCalls = 1 ∧
    (getPrice (fun _ => (none : Option (CacheEntry Nat))) (fun _ => none)
        (Except.error "fail".toList) (fun _ => []) 0
        { cacheHits := 0, cacheMisses := 5, errors := 5 }
        "ethereum".toList "usdc".toList "weth".toList "1000".toList
        "exactin".toList).result = Except.error "fail".toList := by
  have h := @getPrice_no_circuit_breaker Nat "fail".toList (fun _ => []) 0
    { cacheHits := 0, cacheMisses := 5, errors := 5 }
    "ethereum".toList "usdc".toList "weth".toList "1000".toList "exactin".toList
    (by decide)
  exact ⟨h.1, h.2.1⟩

/-- C2 counterexample: assigning the same pair first to TIER_1 and then
to TIER_2 leaves it a member of both tiers, so a pair is not in at most
one tier. -/
theorem addPairToTier_two_tier_counterexample :
    pairKeyOf "ethereum".toList "usdc".toList "weth".toList ∈
      (addPairToTier
        (addPairToTier (fun _ => []) "ethereum".toList "usdc".toList "weth".toList
          TierLabel.TIER_1)
        "ethereum".toList "usdc".toList "weth".toList TierLabel.TIER_2) TierLabel.TIER_1 ∧
    pairKeyOf "ethereum".toList "usdc".toList "weth".toList ∈
      (addPairToTier
        (addPairToTier (fun _ => []) "ethereum".toList "usdc".toList "weth".toList
          TierLabel.TIER_1)
        "ethereum".toList "usdc".toList "weth".toList TierLabel.TIER_2) TierLabel.TIER_2 := by
  decide

/-- C2 (amended): addPairToTier adds the pair key to the chosen tier's
member set and leaves every other tier's member set unchanged; it never
removes a prior membership. -/
theorem addPairToTier_adds_and_preserves (reg : Registry) (c i o : List Char)
    (tier t : TierLabel) (hne : t ≠ tier) :
    addPairToTier reg c i o tier t = reg t ∧
    pairKeyOf c i o ∈ addPairToTier reg c i o tier tier := by
  constructor
  · simp [addPairToTier, hne]
  · simp [addPairToTier]

/-- Witness for the amended C2: adding to TIER_1 leaves TIER_2 untouched
and makes the pair a member of TIER_1. -/
theorem addPairToTier_adds_and_preserves_witness :
    addPairToTier (fun _ => []) "ethereum".toList "usdc".toList "weth".toList
        TierLabel.TIER_1 TierLabel.TIER_2 = (fun _ => ([] : List (List Char))) TierLabel.TIER_2 ∧
    pairKeyOf "ethereum".toList "usdc".toList "weth".toList ∈
      addPairToTier (fun _ => []) "ethereum".toList "usdc".toList "weth".toList
        TierLabel.TIER_1 TierLabel.TIER_1 :=
  addPairToTier_adds_and_preserves (fun _ => []) "ethereum".toList "usdc".toList
    "weth".toList TierLabel.TIER_1 TierLabel.TIER_2 (by decide)

end PriceFeed
